import Mathlib

/-!
# Verification of the kworker API client (`kwork/api.py`)

Shallow embedding of the request / authentication / pagination engine of
`KworkAPI` (file `kwork/api.py`) and proofs about it.

Modelling conventions:
* Python dicts of request parameters become association lists `Params`
  (keys unique by construction of the operations used on them).
* Python `None` values become the `PVal.vnone` constructor; dropping
  `None`-valued parameters (line 73) is `dropNone`.
* The network is an oracle `Env.net : Bool → Params → HttpResult α`
  giving the transport's answer to the attempt with the given `retried`
  flag and (None-dropped) parameters; `Env.signIn` is the outcome of
  `get_token` (the `token` property's sign-in round trip).
* Exceptions become `Except KError _`; `KError.kind` is the exception
  class. Modelled from the spec: the exception classes of the missing
  `kwork/exceptions.py` (`KworkException`, `KworkApiException`,
  `KworkAuthException`, `KworkRateLimitException`,
  `KworkConnectionException`, `KworkValidationException`) are distinct
  sibling kinds, all of them Python `Exception`s, matching the spec's
  taxonomy {GenericApiError, AuthError, RateLimit, Connection,
  Validation} plus the base class.
* Every function also returns a trace of the network calls it issued,
  so that "exactly one retry", "no third attempt", "zero network calls"
  are statable.
-/

set_option autoImplicit false

namespace Kwork

/-- A Python parameter value: a string, an int, or `None`. -/
inductive PVal where
  | vstr : String → PVal
  | vint : Int → PVal
  | vnone : PVal
deriving DecidableEq

/-- A request parameter mapping (`**params` of `KworkAPI.request`). -/
abbrev Params := List (String × PVal)

/-- Line 73: `params = {k: v for k, v in params.items() if v is not None}`. -/
def dropNone (ps : Params) : Params :=
  ps.filter (fun kv => decide (kv.2 ≠ PVal.vnone))

/-- Lines 74–76: copy the parameters and replace the values of the
`password` and `token` keys by the redaction marker `***`. -/
def logParams (ps : Params) : Params :=
  ps.map (fun kv =>
    if kv.1 = "password" ∨ kv.1 = "token" then (kv.1, PVal.vstr "***") else kv)

/-- Python dict assignment `d[k] = v` on an association list. -/
def setP (ps : Params) (k : String) (v : PVal) : Params :=
  if ps.any (fun kv => decide (kv.1 = k)) then
    ps.map (fun kv => if kv.1 = k then (k, v) else kv)
  else
    ps ++ [(k, v)]

/-- Line 83: the request context attached to raised errors. -/
structure RequestInfo where
  method : String
  url : String
  params : Params
deriving DecidableEq

/-- Modelled from the spec: the exception taxonomy of the missing
`kwork/exceptions.py`, as distinct sibling kinds (`base` is the root
`KworkException`, `api` is `KworkApiException` / GenericApiError). -/
inductive EKind where
  | base | api | auth | rateLimit | conn | validation
deriving DecidableEq

/-- A raised exception: its class, message, optional code and optional
attached request context. -/
structure KError where
  kind : EKind
  msg : String
  code : Option Int
  requestInfo : Option RequestInfo
deriving DecidableEq

/-- A decoded JSON response body.  `paging = none` models an absent (or
falsy) `paging` object, `some none` a `paging` object without a `pages`
key, `some (some n)` a reported page count of `n`.  An absent `response`
key is the empty list. -/
structure Body (α : Type) where
  success : Bool
  errorMsg : Option String
  errorCode : Option Int
  response : List α
  paging : Option (Option Int)
deriving DecidableEq

/-- What the transport can hand back for one HTTP attempt. -/
inductive HttpResult (α : Type) where
  | ok : Body α → HttpResult α
  | nonJson : String → HttpResult α
  | badJson : String → HttpResult α
  | netErr : String → HttpResult α
deriving DecidableEq

/-- The environment of one logical `request` call: the transport's
answer per attempt, and the outcome of a token refresh (`get_token`). -/
structure Env (α : Type) where
  net : Bool → Params → HttpResult α
  signIn : Except KError String

instance {ε α : Type} [DecidableEq ε] [DecidableEq α] : DecidableEq (Except ε α) :=
  fun x y =>
    match x, y with
    | .ok a, .ok b =>
        if h : a = b then isTrue (by rw [h])
        else isFalse (by intro hh; injection hh; contradiction)
    | .error a, .error b =>
        if h : a = b then isTrue (by rw [h])
        else isFalse (by intro hh; injection hh; contradiction)
    | .ok _, .error _ => isFalse (fun hh => Except.noConfusion hh)
    | .error _, .ok _ => isFalse (fun hh => Except.noConfusion hh)

/-- One network event of a `request` call: an HTTP attempt with its
`retried` flag and (None-dropped) parameters, or the sign-in round trip
of a token refresh. -/
inductive Event where
  | net : Bool → Params → Event
  | signIn : Event
deriving DecidableEq

/-- Case-insensitive substring occurrence on lists of characters. -/
def subOcc (n : List Char) : List Char → Bool
  | [] => n.isEmpty
  | c :: t => n.isPrefixOf (c :: t) || subOcc n t

/-- Python `needle in msg.lower()` for a lowercase needle. -/
def containsCI (needle msg : String) : Bool :=
  subOcc needle.toList (msg.toList.map Char.toLower)

/-- Lines 99–105: classification of a failed response's error message.
The `limit` test runs first, then `auth`/`token`, else the generic
`KworkApiException` kind. -/
def classify_error (msg : String) : EKind :=
  if containsCI "limit" msg then .rateLimit
  else if containsCI "auth" msg || containsCI "token" msg then .auth
  else .api

/-- Python truthiness of an optional string (`None` and `""` are falsy). -/
def truthyS : Option String → Bool
  | none => false
  | some s => decide (s ≠ "")

/-- Line 82: `url = full_url or BASE_URL.format(api_method)`
(`str(None)` is `"None"`). -/
def urlOf (api_method full_url : Option String) : String :=
  if truthyS full_url then full_url.getD ""
  else "https://api.kwork.ru/" ++ api_method.getD "None"

/-- Lines 124–126: the catch-all `except Exception` handler wraps the
caught exception into the base `KworkException` with message
`"Неизвестная ошибка: " ++ str(e)` and the request context, dropping
the original code. -/
def wrapUnknown (m : String) (ri : RequestInfo) : KError :=
  { kind := .base, msg := "Неизвестная ошибка: " ++ m, code := none,
    requestInfo := some ri }

/-- `KworkAPI.request` (lines 60–126).  `tok` is the cached `_token`;
the result is (outcome, new `_token` state, network-event trace).

Control flow of the source, faithfully: None-valued params are dropped
(73), the log copy is redacted (74–76), a missing target raises
`KworkApiException` before the `try` block (79–80), the response is
classified (87–105).  Exceptions raised *inside* the `try` block other
than `KworkAuthException` (rate limit, generic API error, bad content
type) fall through to the bare `except Exception` (124–126) and are
re-raised wrapped as the base kind; `KworkAuthException` is caught at
109: if `retried` is false the token is invalidated and re-acquired and
the request re-issued once with `retried = True` (110–116), otherwise
the auth error is re-raised as is (117–119).  Connection errors (120)
and JSON decode errors (122) are raised from their handlers unwrapped. -/
def request {α : Type} (env : Env α) (tok : Option String) (meth : String)
    (api_method full_url : Option String) (params : Params) (retried : Bool) :
    Except KError (Body α) × Option String × List Event :=
  let ps := dropNone params
  let lps := logParams ps
  if (api_method.getD "" = "") ∧ (full_url.getD "" = "") then
    (Except.error { kind := .api, msg := "Необходимо указать api_method или full_url",
                    code := none, requestInfo := none }, tok, [])
  else
    let ri : RequestInfo := { method := meth, url := urlOf api_method full_url, params := lps }
    match env.net retried ps with
    | .nonJson text =>
        (Except.error (wrapUnknown ("Недопустимый формат ответа: " ++ text) ri), tok,
         [Event.net retried ps])
    | .badJson m =>
        (Except.error { kind := .api, msg := "Недопустимый json: " ++ m, code := none,
                        requestInfo := some ri }, tok, [Event.net retried ps])
    | .netErr m =>
        (Except.error { kind := .conn, msg := "Ошибка сети: " ++ m, code := none,
                        requestInfo := some ri }, tok, [Event.net retried ps])
    | .ok body =>
        if body.success then (Except.ok body, tok, [Event.net retried ps])
        else
          let emsg := body.errorMsg.getD "Unknown error"
          match classify_error emsg with
          | .rateLimit =>
              (Except.error (wrapUnknown emsg ri), tok, [Event.net retried ps])
          | .auth =>
              if retried then
                (Except.error { kind := .auth, msg := emsg, code := body.errorCode,
                                requestInfo := some ri }, tok, [Event.net retried ps])
              else
                match env.signIn with
                | .error e => (Except.error e, none, [Event.net retried ps, Event.signIn])
                | .ok t =>
                    let r2 := request env (some t) meth api_method full_url
                      (setP ps "token" (PVal.vstr t)) true
                    (r2.1, r2.2.1, Event.net retried ps :: Event.signIn :: r2.2.2)
          | _ =>
              (Except.error (wrapUnknown emsg ri), tok, [Event.net retried ps])
termination_by (if retried then 0 else 1)
decreasing_by simp_all

/-- `KworkAPI._fetch_paginated_data` (lines 143–174), with the per-page
`self.request` call abstracted as the oracle `fetch` and the `model`
constructor as `mk`.  Returns the outcome together with the list of
page numbers requested, in issue order (page 1 synchronously, then the
`asyncio.gather` fan-out over pages 2..N whose result order matches the
task order).  A failed fan-out page is logged and skipped (169–171);
a failure of page 1 propagates. -/
def fetch_paginated_data {α β : Type} (fetch : Int → Except KError (Body α))
    (mk : α → β) : Except KError (List β) × List Int :=
  match fetch 1 with
  | .error e => (Except.error e, [1])
  | .ok first =>
    match first.paging with
    | none => (Except.ok (first.response.map mk), [1])
    | some pagesField =>
      match pagesField with
      | none => (Except.ok (first.response.map mk), [1])
      | some n =>
        if n ≤ 1 then (Except.ok (first.response.map mk), [1])
        else
          let pageIdxs : List Int := (List.range' 2 (n - 1).toNat).map Int.ofNat
          let others := pageIdxs.map fetch
          let results := others.foldl
            (fun acc r =>
              match r with
              | .error _ => acc
              | .ok p => acc ++ p.response) first.response
          (Except.ok (results.map mk), 1 :: pageIdxs)

/-- The loop of `KworkAPI.get_all_dialogs` (lines 180–189): request
pages `page, page+1, …` sequentially, stop on the first page whose
`response` list is empty, concatenate the records (each page mapped
through the `DialogMessage` constructor `mk`) in request order.  The
source's `while True` loop is given explicit fuel; `none` means the
fuel ran out before an empty page was seen. -/
def get_all_dialogs_loop {α β : Type} (fetch : Nat → Except KError (Body α))
    (mk : α → β) : Nat → Nat → Option (Except KError (List β) × List Nat)
  | _, 0 => none
  | page, fuel + 1 =>
    match fetch page with
    | .error e => some (Except.error e, [page])
    | .ok pg =>
      if pg.response.isEmpty then some (Except.ok [], [page])
      else
        match get_all_dialogs_loop fetch mk (page + 1) fuel with
        | none => none
        | some (.error e, tr) => some (Except.error e, page :: tr)
        | some (.ok rest, tr) =>
            some (Except.ok (pg.response.map mk ++ rest), page :: tr)

/-- `KworkAPI.get_all_dialogs` (lines 176–189): one token acquisition
(line 182), then the sequential page loop starting at page 1.  `fetch`
is the oracle for `self.request(..., api_method="dialogs", filter="all",
page=page, token=token)`, taking the token and the page. -/
def get_all_dialogs {α β : Type} (tokenGet : Except KError String)
    (fetch : String → Nat → Except KError (Body α)) (mk : α → β)
    (fuel : Nat) : Option (Except KError (List β) × List Nat) :=
  match tokenGet with
  | .error e => some (Except.error e, [])
  | .ok t => get_all_dialogs_loop (fetch t) mk 1 fuel

/-- `Option Int` parameter to a Python value (`None` ↦ `vnone`). -/
def optIntP : Option Int → PVal
  | none => PVal.vnone
  | some n => PVal.vint n

/-- `Option String` parameter to a Python value (`None` ↦ `vnone`). -/
def optStrP : Option String → PVal
  | none => PVal.vnone
  | some s => PVal.vstr s

/-- Lines 210–219: the `common_params` dict of `get_projects`. -/
def projects_common_params (categories_ids : List Int)
    (price_from price_to hiring_from kworks_filter_from kworks_filter_to : Option Int)
    (query : Option String) (tok : String) : Params :=
  [("categories", PVal.vstr (String.intercalate "," (categories_ids.map toString))),
   ("price_from", optIntP price_from),
   ("price_to", optIntP price_to),
   ("hiring_from", optIntP hiring_from),
   ("kworks_filter_from", optIntP kworks_filter_from),
   ("kworks_filter_to", optIntP kworks_filter_to),
   ("query", optStrP query),
   ("token", PVal.vstr tok)]

/-- A network event of `get_projects`: the token acquisition of line
218 or a `projects` page request. -/
inductive GPEvent where
  | tokenCall : GPEvent
  | pageReq : Int → GPEvent
deriving DecidableEq

/-- `KworkAPI.get_projects` (lines 200–237): reject an empty category
list before anything else (207–208); build `common_params` (acquiring
the token, line 218); with an explicit `page` issue that single request
and return its records (222–229); otherwise delegate to
`_fetch_paginated_data` (232–237).  `fetch` is the oracle for
`self.request(..., api_method="projects", page=·, **common_params)`. -/
def get_projects {α β : Type} (tokenGet : Except KError String)
    (fetch : Params → Int → Except KError (Body α)) (mk : α → β)
    (categories_ids : List Int)
    (price_from price_to hiring_from kworks_filter_from kworks_filter_to : Option Int)
    (page : Option Int) (query : Option String) :
    Except KError (List β) × List GPEvent :=
  if categories_ids = [] then
    (Except.error { kind := .validation, msg := "categories_ids cannot be empty",
                    code := none, requestInfo := none }, [])
  else
    match tokenGet with
    | .error e => (Except.error e, [GPEvent.tokenCall])
    | .ok tok =>
      let common := projects_common_params categories_ids price_from price_to
        hiring_from kworks_filter_from kworks_filter_to query tok
      match page with
      | some p =>
        match fetch common p with
        | .error e => (Except.error e, [GPEvent.tokenCall, GPEvent.pageReq p])
        | .ok body =>
            (Except.ok (body.response.map mk), [GPEvent.tokenCall, GPEvent.pageReq p])
      | none =>
        let r := fetch_paginated_data (fun pg => fetch common pg) mk
        (r.1, GPEvent.tokenCall :: r.2.map GPEvent.pageReq)

/-- A network event of `send_message`: the token acquisition or the
`inboxCreate` request. -/
inductive SMEvent where
  | tokenCall : SMEvent
  | sendReq : SMEvent
deriving DecidableEq

/-- `KworkAPI.send_message` (lines 290–295): `if not text or not
user_id` raises `KworkValidationException` before the request (and
before the token acquisition, which happens while building the
request's arguments).  A missing recipient id is Python-falsy
(`None` or `0`), modelled as `Option Int` with `none`/`some 0`. -/
def send_message {α : Type} (tokenGet : Except KError String)
    (fetch : Params → Except KError (Body α))
    (user_id : Option Int) (text : String) :
    Except KError (Body α) × List SMEvent :=
  if text = "" ∨ user_id.getD 0 = 0 then
    (Except.error { kind := .validation, msg := "user_id и text не могут быть пустыми",
                    code := none, requestInfo := none }, [])
  else
    match tokenGet with
    | .error e => (Except.error e, [SMEvent.tokenCall])
    | .ok tok =>
      (fetch [("user_id", PVal.vint (user_id.getD 0)), ("text", PVal.vstr text),
              ("token", PVal.vstr tok)],
       [SMEvent.tokenCall, SMEvent.sendReq])

/-! ## Helper lemmas -/

theorem dropNone_clean (ps : Params) :
    ∀ kv ∈ dropNone ps, kv.2 ≠ PVal.vnone := by
  intro kv h
  have := List.of_mem_filter h
  simpa using this

theorem dropNone_eq_self (ps : Params) (h : ∀ kv ∈ ps, kv.2 ≠ PVal.vnone) :
    dropNone ps = ps := by
  apply List.filter_eq_self.mpr
  intro kv hm
  simpa using h kv hm

theorem setP_clean (ps : Params) (k : String) (v : PVal) (hv : v ≠ PVal.vnone)
    (h : ∀ kv ∈ ps, kv.2 ≠ PVal.vnone) :
    ∀ kv ∈ setP ps k v, kv.2 ≠ PVal.vnone := by
  intro kv hm
  unfold setP at hm
  split at hm
  · rcases List.mem_map.mp hm with ⟨a, ha, rfl⟩
    by_cases hk : a.1 = k
    · rw [if_pos hk]; exact hv
    · rw [if_neg hk]; exact h a ha
  · rcases List.mem_append.mp hm with hin | hone
    · exact h kv hin
    · rcases List.mem_singleton.mp hone with rfl
      exact hv

/-- Re-dropping `None` values after the retry's token assignment is a
no-op: the retry's parameter dict contains no `None` values. -/
theorem dropNone_setP_token (ps : Params) (t : String) :
    dropNone (setP (dropNone ps) "token" (PVal.vstr t)) =
      setP (dropNone ps) "token" (PVal.vstr t) :=
  dropNone_eq_self _
    (setP_clean _ _ _ (fun h => PVal.noConfusion h) (dropNone_clean ps))

theorem logParams_redacted (ps : Params) :
    ∀ kv ∈ logParams ps, (kv.1 = "password" ∨ kv.1 = "token") →
      kv.2 = PVal.vstr "***" := by
  intro kv hm hk
  rcases List.mem_map.mp hm with ⟨a, ha, rfl⟩
  by_cases h : a.1 = "password" ∨ a.1 = "token"
  · rw [if_pos h]
  · rw [if_neg h] at hk ⊢
    exact absurd hk h

/-! ## C5: error classification -/

/-- C5: error classification is a pure function of the failure message:
if it contains "limit" (case-insensitively) the result is the rate-limit
kind; otherwise, if it contains "auth" or "token" the result is the auth
kind; otherwise the generic API-error kind — and the "limit" test takes
precedence over the "auth"/"token" test. -/
theorem classify_error_spec (msg : String) :
    (containsCI "limit" msg = true → classify_error msg = EKind.rateLimit) ∧
    (containsCI "limit" msg = false →
      (containsCI "auth" msg || containsCI "token" msg) = true →
      classify_error msg = EKind.auth) ∧
    (containsCI "limit" msg = false →
      (containsCI "auth" msg || containsCI "token" msg) = false →
      classify_error msg = EKind.api) := by
  refine ⟨fun h => ?_, fun h1 h2 => ?_, fun h1 h2 => ?_⟩ <;>
    simp [classify_error, *]

/-- C5 witness: a message containing both "limit" and "auth" (after
lowercasing) is classified as rate-limit, showing the precedence. -/
theorem classify_error_spec_witness :
    containsCI "limit" "Authorization Limit reached" = true ∧
    classify_error "Authorization Limit reached" = EKind.rateLimit :=
  ⟨by decide, (classify_error_spec "Authorization Limit reached").1 (by decide)⟩

/-! ## C7: request without a target -/

/-- C7 amended: a `request` call supplying neither `api_method` nor
`full_url` fails with the generic `KworkApiException` (not the
validation kind), carrying no request context, and issues no network
call (empty trace). -/
theorem request_no_target_api_error {α : Type} (env : Env α)
    (tok : Option String) (meth : String) (params : Params) (retried : Bool) :
    request env tok meth none none params retried =
      (Except.error { kind := EKind.api,
                      msg := "Необходимо указать api_method или full_url",
                      code := none, requestInfo := none }, tok, []) := by
  unfold request
  simp

/-- C7 counterexample: at a concrete call with neither target supplied,
the raised error's kind is the generic API kind, not the validation
kind the claim names. -/
theorem request_no_target_not_validation :
    (request (α := Nat)
        { net := fun _ _ => HttpResult.ok ⟨true, none, none, [], none⟩,
          signIn := Except.ok "t" }
        none "post" none none [] false).1 =
      Except.error { kind := EKind.api,
                     msg := "Необходимо указать api_method или full_url",
                     code := none, requestInfo := none } ∧
    EKind.api ≠ EKind.validation := by
  constructor
  · unfold request
    decide
  · decide

/-! ## C2: rate-limited responses -/

/-- A transport that always answers with a failed body whose error
message reports a rate limit. -/
def envRateLimited : Env Nat :=
  { net := fun _ _ =>
      HttpResult.ok { success := false, errorMsg := some "Rate limit exceeded",
                      errorCode := some 429, response := [], paging := none },
    signIn := Except.ok "t" }

/-- C2, evaluated at the failing input: on a response with a false
success flag and error message "Rate limit exceeded", the caller does
not observe the rate-limit kind — the bare `except Exception` handler
(lines 124–126) catches the `KworkRateLimitException` raised at line
100 and re-raises it wrapped as the base `KworkException` with the
"Неизвестная ошибка" message and the error code dropped.  No retry is
performed (the trace holds the single original attempt). -/
theorem request_rate_limit_wrapped :
    request envRateLimited none "post" (some "projects") none [] false =
      (Except.error { kind := EKind.base,
                      msg := "Неизвестная ошибка: Rate limit exceeded",
                      code := none,
                      requestInfo :=
                        some { method := "post",
                               url := "https://api.kwork.ru/projects",
                               params := [] } },
       none, [Event.net false []]) ∧
    EKind.base ≠ EKind.rateLimit := by
  constructor
  · unfold request
    decide
  · decide

/-! ## C1: single auth retry -/

/-- The `retried = True` leg of `request`: a second auth-classified
failure is re-raised to the caller as the auth kind, unwrapped, with no
further attempt. -/
theorem request_retried_auth {α : Type} (env : Env α) (tok : Option String)
    (meth : String) (api_method full_url : Option String) (params : Params)
    (b : Body α) (msg : String)
    (htarget : ¬((api_method.getD "" = "") ∧ (full_url.getD "" = "")))
    (h : env.net true (dropNone params) = HttpResult.ok b)
    (hs : b.success = false) (hm : b.errorMsg = some msg)
    (hc : classify_error msg = EKind.auth) :
    request env tok meth api_method full_url params true =
      (Except.error { kind := EKind.auth, msg := msg, code := b.errorCode,
                      requestInfo :=
                        some { method := meth,
                               url := urlOf api_method full_url,
                               params := logParams (dropNone params) } },
       tok, [Event.net true (dropNone params)]) := by
  unfold request
  rw [if_neg htarget, h]
  simp [hs, hm, hc]

/-- C1: on a first auth-classified failure with `retried = false`, the
cached token is invalidated and refreshed via sign-in, and the identical
request is re-issued exactly once, with the refreshed token in its
parameters and `retried = true`; when that second attempt also fails
with an auth-classified error, that auth error is raised to the caller
and no third attempt is made: the trace is exactly [first attempt,
sign-in, second attempt]. -/
theorem request_auth_retry_once {α : Type} (env : Env α) (tok : Option String)
    (meth : String) (api_method full_url : Option String) (params : Params)
    (b1 b2 : Body α) (msg1 msg2 t : String)
    (htarget : ¬((api_method.getD "" = "") ∧ (full_url.getD "" = "")))
    (h1 : env.net false (dropNone params) = HttpResult.ok b1)
    (hs1 : b1.success = false) (hm1 : b1.errorMsg = some msg1)
    (hc1 : classify_error msg1 = EKind.auth)
    (hsign : env.signIn = Except.ok t)
    (h2 : env.net true (setP (dropNone params) "token" (PVal.vstr t)) = HttpResult.ok b2)
    (hs2 : b2.success = false) (hm2 : b2.errorMsg = some msg2)
    (hc2 : classify_error msg2 = EKind.auth) :
    request env tok meth api_method full_url params false =
      (Except.error { kind := EKind.auth, msg := msg2, code := b2.errorCode,
                      requestInfo :=
                        some { method := meth,
                               url := urlOf api_method full_url,
                               params := logParams (setP (dropNone params) "token"
                                 (PVal.vstr t)) } },
       some t,
       [Event.net false (dropNone params), Event.signIn,
        Event.net true (setP (dropNone params) "token" (PVal.vstr t))]) := by
  have hinner := request_retried_auth env (some t) meth api_method full_url
    (setP (dropNone params) "token" (PVal.vstr t)) b2 msg2 htarget
    (by rw [dropNone_setP_token]; exact h2) hs2 hm2 hc2
  rw [dropNone_setP_token] at hinner
  unfold request
  rw [if_neg htarget, h1]
  simp [hs1, hm1, hc1, hsign, hinner]

/-- A transport whose first attempt fails with an auth-classified
message and whose retried attempt fails with a token-classified
message. -/
def envAuthTwice : Env Nat :=
  { net := fun r _ =>
      if r then
        HttpResult.ok { success := false, errorMsg := some "token invalid",
                        errorCode := some 401, response := [], paging := none }
      else
        HttpResult.ok { success := false, errorMsg := some "auth required",
                        errorCode := some 401, response := [], paging := none },
    signIn := Except.ok "T2" }

/-- C1 witness: a concrete double auth failure — the caller observes
the second auth error, the token cache ends refreshed to the sign-in's
token, and the trace is exactly first attempt, sign-in, retried attempt
with the refreshed token. -/
theorem request_auth_retry_once_witness :
    request envAuthTwice (some "T1") "post" (some "actor") none
        [("token", PVal.vstr "T1")] false =
      (Except.error { kind := EKind.auth, msg := "token invalid", code := some 401,
                      requestInfo :=
                        some { method := "post",
                               url := "https://api.kwork.ru/actor",
                               params := [("token", PVal.vstr "***")] } },
       some "T2",
       [Event.net false [("token", PVal.vstr "T1")], Event.signIn,
        Event.net true [("token", PVal.vstr "T2")]]) :=
  request_auth_retry_once envAuthTwice (some "T1") "post" (some "actor") none
    [("token", PVal.vstr "T1")]
    { success := false, errorMsg := some "auth required", errorCode := some 401,
      response := [], paging := none }
    { success := false, errorMsg := some "token invalid", errorCode := some 401,
      response := [], paging := none }
    "auth required" "token invalid" "T2"
    (by decide) rfl rfl rfl (by decide) rfl rfl rfl rfl (by decide)

/-! ## C4: single-page metadata-driven fetch -/

/-- C4: if the first page's response carries no paging metadata (or a
falsy/keyless one) or reports at most one page, `_fetch_paginated_data`
issues exactly one request (the trace is `[1]`) and returns exactly the
first page's records. -/
theorem fetch_paginated_single_page {α β : Type}
    (fetch : Int → Except KError (Body α)) (mk : α → β) (p1 : Body α)
    (h1 : fetch 1 = Except.ok p1)
    (hp : p1.paging = none ∨ p1.paging = some none ∨
          ∃ n, p1.paging = some (some n) ∧ n ≤ 1) :
    fetch_paginated_data fetch mk = (Except.ok (p1.response.map mk), [1]) := by
  unfold fetch_paginated_data
  rcases hp with hp | hp | ⟨n, hp, hn⟩
  · simp [h1, hp]
  · simp [h1, hp]
  · simp [h1, hp, hn]

/-- C4 witness: a server reporting one total page is fetched with a
single request returning its records. -/
theorem fetch_paginated_single_page_witness :
    fetch_paginated_data
        (fun _ => Except.ok { success := true, errorMsg := none, errorCode := none,
                              response := [7, 8], paging := some (some 1) })
        (id (α := Nat)) =
      (Except.ok [7, 8], [1]) :=
  fetch_paginated_single_page _ id
    { success := true, errorMsg := none, errorCode := none,
      response := [7, 8], paging := some (some 1) }
    rfl (Or.inr (Or.inr ⟨1, rfl, le_refl 1⟩))

/-! ## C3: fan-out with one failed page -/

/-- C3: when the first page reports 5 total pages and exactly the fetch
of page 3 fails, `_fetch_paginated_data` returns the records of pages
1, 2, 4 and 5 concatenated in page-index order, raises no error, and
the trace shows the five page requests. -/
theorem fetch_paginated_page3_failure {α β : Type}
    (fetch : Int → Except KError (Body α)) (mk : α → β)
    (p1 p2 p4 p5 : Body α) (e : KError)
    (h1 : fetch 1 = Except.ok p1) (hp : p1.paging = some (some 5))
    (h2 : fetch 2 = Except.ok p2) (h3 : fetch 3 = Except.error e)
    (h4 : fetch 4 = Except.ok p4) (h5 : fetch 5 = Except.ok p5) :
    fetch_paginated_data fetch mk =
      (Except.ok ((p1.response ++ p2.response ++ p4.response ++ p5.response).map mk),
       [1, 2, 3, 4, 5]) := by
  unfold fetch_paginated_data
  simp only [h1, hp]
  rw [if_neg (by decide : ¬(5 : Int) ≤ 1)]
  rw [show List.map Int.ofNat (List.range' 2 ((5 : Int) - 1).toNat) =
        ([2, 3, 4, 5] : List Int) by decide]
  simp [h2, h3, h4, h5]

/-- C3 witness: a concrete five-page fetch whose third page fails
returns the records of pages 1, 2, 4, 5 in that order. -/
theorem fetch_paginated_page3_failure_witness :
    fetch_paginated_data
        (fun p =>
          if p = 3 then
            Except.error { kind := EKind.conn, msg := "boom", code := none,
                           requestInfo := none }
          else
            Except.ok { success := true, errorMsg := none, errorCode := none,
                        response := [p.toNat],
                        paging := if p = 1 then some (some 5) else none })
        (id (α := Nat)) =
      (Except.ok [1, 2, 4, 5], [1, 2, 3, 4, 5]) := by
  have h := fetch_paginated_page3_failure
    (fun p =>
      if p = 3 then
        Except.error { kind := EKind.conn, msg := "boom", code := none,
                       requestInfo := none }
      else
        Except.ok { success := true, errorMsg := none, errorCode := none,
                    response := [p.toNat],
                    paging := if p = 1 then some (some 5) else none })
    (id (α := Nat))
    { success := true, errorMsg := none, errorCode := none,
      response := [1], paging := some (some 5) }
    { success := true, errorMsg := none, errorCode := none,
      response := [2], paging := none }
    { success := true, errorMsg := none, errorCode := none,
      response := [4], paging := none }
    { success := true, errorMsg := none, errorCode := none,
      response := [5], paging := none }
    { kind := EKind.conn, msg := "boom", code := none, requestInfo := none }
    (by decide) rfl (by decide) (by decide) (by decide) (by decide)
  simpa using h

/-! ## C6: sequential fallback fetch -/

/-- The sequential loop, over an abstract run: if pages
`start, …, start + k - 1` return the non-empty record lists `ps` and
page `start + k` returns an empty list, the loop requests exactly pages
`start, …, start + k`, stops there, and returns the concatenation of
the fetched pages' records (each mapped through `mk`) in request
order. -/
theorem get_all_dialogs_loop_spec {α β : Type}
    (fetch : Nat → Except KError (Body α)) (mk : α → β) (ps : List (List α)) :
    ∀ (start fuel : Nat),
      (∀ i (h : i < ps.length), ∃ b : Body α,
        fetch (start + i) = Except.ok b ∧ b.response = ps.get ⟨i, h⟩) →
      (∀ i (h : i < ps.length), ps.get ⟨i, h⟩ ≠ []) →
      (∃ b : Body α, fetch (start + ps.length) = Except.ok b ∧ b.response = []) →
      ps.length < fuel →
      get_all_dialogs_loop fetch mk start fuel =
        some (Except.ok ((ps.map (fun l => l.map mk)).flatten),
              List.range' start (ps.length + 1)) := by
  induction ps with
  | nil =>
    intro start fuel hpg hne hend hfuel
    obtain ⟨f, rfl⟩ : ∃ f, fuel = f + 1 := ⟨fuel - 1, by omega⟩
    obtain ⟨b, hb, hbr⟩ := hend
    rw [List.length_nil, Nat.add_zero] at hb
    unfold get_all_dialogs_loop
    rw [hb]
    simp [hbr, List.range']
  | cons l ls ih =>
    intro start fuel hpg hne hend hfuel
    obtain ⟨f, rfl⟩ : ∃ f, fuel = f + 1 := ⟨fuel - 1, by omega⟩
    obtain ⟨b, hb, hbr⟩ := hpg 0 (by simp)
    rw [Nat.add_zero] at hb
    have hl : b.response = l := hbr
    have hlne : l ≠ [] := hne 0 (by simp)
    have hrec := ih (start + 1) f
      (fun i h => by
        obtain ⟨b', hb', hbr'⟩ := hpg (i + 1) (by simpa using Nat.succ_lt_succ h)
        exact ⟨b', by rw [show start + 1 + i = start + (i + 1) by omega]; exact hb',
               hbr'⟩)
      (fun i h => hne (i + 1) (by simpa using Nat.succ_lt_succ h))
      (by
        obtain ⟨b', hb', hbr'⟩ := hend
        exact ⟨b', by
          rw [show start + 1 + ls.length = start + (l :: ls).length by simp; omega]
          exact hb', hbr'⟩)
      (by simp at hfuel; omega)
    unfold get_all_dialogs_loop
    simp only [hb]
    rw [if_neg (show ¬(b.response.isEmpty = true) by simp [hl, hlne])]
    rw [hrec]
    simp [hl, List.range'_succ]

/-- C6: `get_all_dialogs` requests pages 1, 2, 3, … one at a time,
stops issuing requests as soon as a page returns an empty record list,
and returns the concatenation of the previously fetched pages' records
in request order: with non-empty pages `ps` followed by an empty page,
the trace is exactly `[1, …, ps.length + 1]` and the result is the
concatenation of `ps` (each record mapped through the model
constructor). -/
theorem get_all_dialogs_sequential {α β : Type}
    (tokenGet : Except KError String)
    (fetch : String → Nat → Except KError (Body α)) (mk : α → β)
    (t : String) (ps : List (List α)) (fuel : Nat)
    (ht : tokenGet = Except.ok t)
    (hpg : ∀ i (h : i < ps.length), ∃ b : Body α,
      fetch t (1 + i) = Except.ok b ∧ b.response = ps.get ⟨i, h⟩)
    (hne : ∀ i (h : i < ps.length), ps.get ⟨i, h⟩ ≠ [])
    (hend : ∃ b : Body α, fetch t (1 + ps.length) = Except.ok b ∧ b.response = [])
    (hfuel : ps.length < fuel) :
    get_all_dialogs tokenGet fetch mk fuel =
      some (Except.ok ((ps.map (fun l => l.map mk)).flatten),
            List.range' 1 (ps.length + 1)) := by
  unfold get_all_dialogs
  rw [ht]
  exact get_all_dialogs_loop_spec (fetch t) mk ps 1 fuel hpg hne hend hfuel

/-- A dialogs server with a page of three records, a page of two
records, and empty pages from page 3 on. -/
def dialogsServer : String → Nat → Except KError (Body Nat) :=
  fun _ page =>
    if page = 1 then
      Except.ok { success := true, errorMsg := none, errorCode := none,
                  response := [10, 20, 30], paging := none }
    else if page = 2 then
      Except.ok { success := true, errorMsg := none, errorCode := none,
                  response := [40, 50], paging := none }
    else
      Except.ok { success := true, errorMsg := none, errorCode := none,
                  response := [], paging := none }

/-- C6 witness: with pages of 3, 2 and 0 items the sequential fetch
returns exactly the 5 items and makes exactly three requests. -/
theorem get_all_dialogs_sequential_witness :
    get_all_dialogs (Except.ok "T") dialogsServer id 10 =
      some (Except.ok [10, 20, 30, 40, 50], [1, 2, 3]) := by
  have h := get_all_dialogs_sequential (Except.ok "T") dialogsServer id "T"
    [[10, 20, 30], [40, 50]] 10 rfl
    (by
      intro i h
      match i, h with
      | 0, _ => exact ⟨_, rfl, rfl⟩
      | 1, _ => exact ⟨_, rfl, rfl⟩)
    (by
      intro i h
      match i, h with
      | 0, _ => simp
      | 1, _ => simp)
    ⟨_, rfl, rfl⟩ (by decide)
  simpa using h

/-! ## C10: explicit-page project search -/

/-- C10: a `get_projects` call with an explicit page argument and a
non-empty category list issues exactly one `projects` request (after
the token acquisition) and returns exactly that page's records; the
response's paging metadata is never consulted (the theorem holds for
every `pg`, whatever its `paging` field reports). -/
theorem get_projects_single_page {α β : Type} (tokenGet : Except KError String)
    (fetch : Params → Int → Except KError (Body α)) (mk : α → β)
    (cats : List Int) (pf pt hf kf kt : Option Int) (p : Int) (q : Option String)
    (t : String) (pg : Body α)
    (hc : cats ≠ [])
    (ht : tokenGet = Except.ok t)
    (hfetch : fetch (projects_common_params cats pf pt hf kf kt q t) p =
      Except.ok pg) :
    get_projects tokenGet fetch mk cats pf pt hf kf kt (some p) q =
      (Except.ok (pg.response.map mk), [GPEvent.tokenCall, GPEvent.pageReq p]) := by
  unfold get_projects
  rw [if_neg hc, ht]
  simp [hfetch]

/-- C10 witness: a concrete explicit-page call — the response reports
9 total pages, yet a single request is made and only its records are
returned. -/
theorem get_projects_single_page_witness :
    get_projects (α := Nat) (Except.ok "T")
        (fun _ _ => Except.ok { success := true, errorMsg := none, errorCode := none,
                                response := [3, 4], paging := some (some 9) })
        id [11] none none none none none (some 2) none =
      (Except.ok [3, 4], [GPEvent.tokenCall, GPEvent.pageReq 2]) :=
  get_projects_single_page (Except.ok "T")
    (fun _ _ => Except.ok { success := true, errorMsg := none, errorCode := none,
                            response := [3, 4], paging := some (some 9) })
    id [11] none none none none none 2 none "T"
    { success := true, errorMsg := none, errorCode := none,
      response := [3, 4], paging := some (some 9) }
    (by decide) rfl rfl

/-! ## C9: argument validation before any network call -/

/-- C9: `send_message` with an empty text or a falsy (missing)
recipient id, and `get_projects` with an empty category list, fail with
the validation kind and an empty network trace — no request and no
token acquisition / sign-in. -/
theorem validation_before_network {α β : Type} (tokenGet : Except KError String)
    (fetchS : Params → Except KError (Body α))
    (fetchP : Params → Int → Except KError (Body α)) (mk : α → β)
    (uid : Option Int) (text : String) (cats : List Int)
    (pf pt hf kf kt : Option Int) (pgArg : Option Int) (q : Option String) :
    ((text = "" ∨ uid.getD 0 = 0) →
      send_message tokenGet fetchS uid text =
        (Except.error { kind := EKind.validation,
                        msg := "user_id и text не могут быть пустыми",
                        code := none, requestInfo := none }, [])) ∧
    (cats = [] →
      get_projects tokenGet fetchP mk cats pf pt hf kf kt pgArg q =
        (Except.error { kind := EKind.validation,
                        msg := "categories_ids cannot be empty",
                        code := none, requestInfo := none }, [])) := by
  constructor
  · intro h
    unfold send_message
    rw [if_pos h]
  · intro h
    unfold get_projects
    rw [if_pos h]

/-- C9 witness: a message with a missing recipient and a project search
with an empty category list, both with a server and token available —
both fail with the validation kind and an empty trace. -/
theorem validation_before_network_witness :
    send_message (α := Nat) (Except.ok "T")
        (fun _ => Except.ok { success := true, errorMsg := none, errorCode := none,
                              response := [], paging := none })
        none "hello" =
      (Except.error { kind := EKind.validation,
                      msg := "user_id и text не могут быть пустыми",
                      code := none, requestInfo := none }, []) ∧
    get_projects (α := Nat) (β := Nat) (Except.ok "T")
        (fun _ _ => Except.ok { success := true, errorMsg := none, errorCode := none,
                                response := [], paging := none })
        id [] none none none none none none none =
      (Except.error { kind := EKind.validation,
                      msg := "categories_ids cannot be empty",
                      code := none, requestInfo := none }, []) :=
  ⟨(validation_before_network (Except.ok "T")
      (fun _ => Except.ok { success := true, errorMsg := none, errorCode := none,
                            response := [], paging := none })
      (fun _ _ => Except.ok { success := true, errorMsg := none, errorCode := none,
                              response := [], paging := none })
      (id (α := Nat)) none "hello" [] none none none none none none none).1
      (Or.inr rfl),
   (validation_before_network (Except.ok "T")
      (fun _ => Except.ok { success := true, errorMsg := none, errorCode := none,
                            response := [], paging := none })
      (fun _ _ => Except.ok { success := true, errorMsg := none, errorCode := none,
                              response := [], paging := none })
      (id (α := Nat)) none "hello" [] none none none none none none none).2
      rfl⟩

/-! ## C8: redaction of sensitive parameters -/

/-- A raised error's attached request context holds no unredacted
`password` or `token` value: every such entry is the literal marker. -/
def redactedOK (e : KError) : Bool :=
  match e.requestInfo with
  | none => true
  | some ri =>
      ri.params.all (fun kv =>
        !(kv.1 == "password" || kv.1 == "token") || kv.2 == PVal.vstr "***")

theorem redactedOK_of_logParams (k : EKind) (m : String) (c : Option Int)
    (meth url : String) (ps : Params) :
    redactedOK { kind := k, msg := m, code := c,
                 requestInfo := some { method := meth, url := url,
                                       params := logParams ps } } = true := by
  unfold redactedOK
  rw [List.all_eq_true]
  intro kv hkv
  rcases List.mem_map.mp hkv with ⟨a, ha, rfl⟩
  by_cases h : a.1 = "password" ∨ a.1 = "token"
  · rw [if_pos h]
    simp
  · rw [if_neg h]
    push_neg at h
    simp [h.1, h.2]

theorem redactedOK_wrapUnknown (m meth url : String) (ps : Params) :
    redactedOK (wrapUnknown m { method := meth, url := url,
                                params := logParams ps }) = true :=
  redactedOK_of_logParams EKind.base ("Неизвестная ошибка: " ++ m) none meth url ps

/-- Every error raised by the `retried = true` leg of `request` carries
either no request context or one whose parameters are the redacted
`log_params` map. -/
theorem request_retried_errors_redacted {α : Type} (env : Env α)
    (tok : Option String) (meth : String) (am fu : Option String)
    (params : Params) :
    ∀ e, (request env tok meth am fu params true).1 = Except.error e →
      redactedOK e = true := by
  intro e he
  unfold request at he
  simp only [] at he
  repeat' split at he
  all_goals try exact absurd trivial (by assumption)
  all_goals simp at he
  all_goals subst he
  all_goals first
    | rfl
    | exact redactedOK_wrapUnknown _ _ _ _
    | exact redactedOK_of_logParams _ _ _ _ _ _

/-- Every error raised by `request` (either leg) carries either no
request context or a redacted one, provided the same holds of a failed
token refresh. -/
theorem request_errors_redacted {α : Type} (env : Env α) (tok : Option String)
    (meth : String) (am fu : Option String) (params : Params) (retried : Bool)
    (hsign : ∀ e, env.signIn = Except.error e → redactedOK e = true) :
    ∀ e, (request env tok meth am fu params retried).1 = Except.error e →
      redactedOK e = true := by
  cases retried with
  | true => exact request_retried_errors_redacted env tok meth am fu params
  | false =>
    intro e he
    unfold request at he
    simp only [] at he
    split at he
    · simp at he
      subst he
      rfl
    · split at he
      · simp at he
        subst he
        exact redactedOK_wrapUnknown _ _ _ _
      · simp at he
        subst he
        exact redactedOK_of_logParams _ _ _ _ _ _
      · simp at he
        subst he
        exact redactedOK_of_logParams _ _ _ _ _ _
      · split at he
        · simp at he
        · split at he
          · simp at he
            subst he
            exact redactedOK_wrapUnknown _ _ _ _
          · split at he
            · exact Bool.noConfusion (by assumption : false = true)
            · rename_i hsig
              split at he
              · rename_i e0 heq
                simp at he
                subst he
                exact hsign _ heq
              · simp at he
                exact request_retried_errors_redacted env _ meth am fu _ e he
          all_goals
            simp at he
            subst he
            exact redactedOK_wrapUnknown _ _ _ _

/-- C8: for every request shape, the values of the `password` and
`token` parameters never appear unredacted in diagnostic output: every
such entry of the logged parameter map is the literal `***` marker, and
every error raised by `request` carries a request context whose
`password`/`token` entries are the literal `***` marker (given that the
same holds of a failed token refresh, whose error comes from its own
`request` call). -/
theorem request_diagnostics_redacted {α : Type} (env : Env α)
    (tok : Option String) (meth : String) (am fu : Option String)
    (params : Params) (retried : Bool)
    (hsign : ∀ e, env.signIn = Except.error e → redactedOK e = true) :
    (∀ kv ∈ logParams params, (kv.1 = "password" ∨ kv.1 = "token") →
      kv.2 = PVal.vstr "***") ∧
    (∀ e, (request env tok meth am fu params retried).1 = Except.error e →
      redactedOK e = true) :=
  ⟨logParams_redacted params,
   request_errors_redacted env tok meth am fu params retried hsign⟩

/-- A transport answering every attempt with a generic failure. -/
def envDiag : Env Nat :=
  { net := fun _ _ =>
      HttpResult.ok { success := false, errorMsg := some "boom",
                      errorCode := none, response := [], paging := none },
    signIn := Except.ok "t" }

/-- C8 witness: the error raised for a request carrying a `password`
parameter holds the redaction marker in its attached context. -/
theorem request_diagnostics_redacted_witness :
    redactedOK { kind := EKind.base, msg := "Неизвестная ошибка: boom",
                 code := none,
                 requestInfo :=
                   some { method := "post",
                          url := "https://api.kwork.ru/user",
                          params := [("password", PVal.vstr "***"),
                                     ("id", PVal.vint 7)] } } = true :=
  (request_diagnostics_redacted envDiag none "post" (some "user") none
      [("password", PVal.vstr "hunter2"), ("id", PVal.vint 7)] false
      (fun _ h => Except.noConfusion h)).2 _ (by unfold request; decide)

end Kwork
